import Mathlib

/-!
Shallow embedding of `src/transaction/gas_fee_middleware.rs` from the
`alloy-ethers-typecast` repository, together with theorems settling the
specification claims about the gas-fee middleware.

Modelling conventions:
* `f64` percentile constants hold exact small integers (25.0, 50.0, 75.0,
  90.0) and no arithmetic is ever performed on them, so they are embedded
  as `Nat`.
* `U256` quantities (base fee, rewards, fee fields) are embedded as `Nat`.
* The chain-state provider (`get_block`, `fee_history`), the pluggable
  estimator (`ethers::utils::eip1559_default_estimator`, an external
  dependency treated by the spec as a black box) and the inner middleware
  stage are gathered in an explicit `Env` record; `fill_transaction`
  threads the transaction state explicitly (mutation-in-place in Rust
  becomes returning the new transaction, also on error paths) and records
  the chain-state queries this stage itself issues in a log.
* Rust `Result<T, E>` becomes `Except E T`; `Option<T>` becomes `Option T`.
-/

namespace AlloyEthersTypecast

/-- Reward percentile for the `Slow` speed (source line 9, value 25.0). -/
def EIP1559_FEE_ESTIMATION_REWARD_PERCENTILE_SLOW : Nat := 25

/-- Reward percentile for the `Medium` speed (source line 10, value 50.0). -/
def EIP1559_FEE_ESTIMATION_REWARD_PERCENTILE_MEDIUM : Nat := 50

/-- Reward percentile for the `Fast` speed (source line 11, value 75.0). -/
def EIP1559_FEE_ESTIMATION_REWARD_PERCENTILE_FAST : Nat := 75

/-- Reward percentile for the `Fastest` speed (source line 12, value 90.0). -/
def EIP1559_FEE_ESTIMATION_REWARD_PERCENTILE_FASTEST : Nat := 90

/-- The percentile array indexed by the speed ordinal (source lines 14-19). -/
def EIP1559_FEE_ESTIMATION_REWARD_PERCENTILES : List Nat :=
  [EIP1559_FEE_ESTIMATION_REWARD_PERCENTILE_SLOW,
   EIP1559_FEE_ESTIMATION_REWARD_PERCENTILE_MEDIUM,
   EIP1559_FEE_ESTIMATION_REWARD_PERCENTILE_FAST,
   EIP1559_FEE_ESTIMATION_REWARD_PERCENTILE_FASTEST]

/-- Number of past blocks used for the fee-history window.  This is
`ethers::utils::EIP1559_FEE_ESTIMATION_PAST_BLOCKS`, an external-dependency
constant whose value in ethers-rs is 10. -/
def EIP1559_FEE_ESTIMATION_PAST_BLOCKS : Nat := 10

/-- The `GasFeeSpeed` enumeration (source lines 21-28), `repr(u8)` with
discriminants 0..3. -/
inductive GasFeeSpeed where
  | Slow
  | Medium
  | Fast
  | Fastest
  deriving DecidableEq, Fintype

/-- The numeric discriminant of a speed, i.e. the Rust cast `speed as usize`
on the `repr(u8)` enumeration. -/
def GasFeeSpeed.toOrdinal : GasFeeSpeed → Nat
  | .Slow => 0
  | .Medium => 1
  | .Fast => 2
  | .Fastest => 3

/-- The `ProviderError` variants that this middleware itself constructs
(source lines 105 and 107 build `ProviderError::CustomError`). -/
inductive ProviderError where
  | CustomError (msg : String)
  deriving DecidableEq

/-- The `GasFeeMiddlewareError<M>` enumeration (source lines 36-46), with the
inner middleware's error type `M::Error` abstracted as `ε`. -/
inductive GasFeeMiddlewareError (ε : Type) where
  | MiddlewareError (e : ε)
  | ProviderError (e : ProviderError)
  | InvalidGasFeeSpeed
  deriving DecidableEq

/-- The configuration state the middleware holds after construction (source
lines 30-34).  The owned `inner: M` capability is modelled separately, in
`Env`, since in this embedding the inner stage is an explicit collaborator. -/
structure GasFeeMiddleware where
  fee_history_percentile : Nat
  deriving DecidableEq

/-- `GasFeeMiddleware::new` (source lines 67-77): the percentile array is
indexed at the speed's numeric ordinal; a missing entry (out-of-range
ordinal) yields `InvalidGasFeeSpeed`. -/
def GasFeeMiddleware.new (ε : Type) (speed_ordinal : Nat) :
    Except (GasFeeMiddlewareError ε) GasFeeMiddleware :=
  match EIP1559_FEE_ESTIMATION_REWARD_PERCENTILES[speed_ordinal]? with
  | some p => .ok { fee_history_percentile := p }
  | none => .error .InvalidGasFeeSpeed

/-- The percentile that construction resolves for a given speed level:
`new` restricted to the enumeration's ordinals. -/
def percentile_for (s : GasFeeSpeed) : Option Nat :=
  EIP1559_FEE_ESTIMATION_REWARD_PERCENTILES[s.toOrdinal]?

/-- A block as far as this middleware inspects it: only the optional
`base_fee_per_gas` field (source line 106). -/
structure Block where
  base_fee_per_gas : Option Nat
  deriving DecidableEq

/-- The fee-history response as far as this middleware inspects it: only the
`reward` matrix (source line 118). -/
structure FeeHistory where
  reward : List (List Nat)
  deriving DecidableEq

/-- Block tag used by the middleware's own queries; the source only ever
uses `BlockNumber::Latest` (source lines 103 and 112). -/
inductive BlockTag where
  | Latest
  deriving DecidableEq

/-- A chain-state query issued by this stage itself, recorded so that
theorems can speak about which queries `fill_transaction` performs. -/
inductive ChainQuery where
  | GetBlock (tag : BlockTag)
  | FeeHistory (block_count : Nat) (end_block : BlockTag) (percentiles : List Nat)
  deriving DecidableEq

/-- The EIP-1559 transaction variant's fields that this middleware touches,
plus an opaque payload `β` standing for every other field. -/
structure Eip1559Tx (β : Type) where
  max_fee_per_gas : Option Nat
  max_priority_fee_per_gas : Option Nat
  payload : β
  deriving DecidableEq

/-- `TypedTransaction` with the non-EIP-1559 variants carrying an opaque
payload `α`. -/
inductive TypedTransaction (α β : Type) where
  | Legacy (fields : α)
  | Eip2930 (fields : α)
  | Eip1559 (tx : Eip1559Tx β)
  deriving DecidableEq

/-- Whether a transaction is of the fee-market (EIP-1559) variant. -/
def TypedTransaction.isEip1559 {α β : Type} : TypedTransaction α β → Bool
  | .Eip1559 _ => true
  | _ => false

/-- The external collaborators of one `fill_transaction` call: the chain
state provider (queries delegated to the inner middleware and wrapped with
`MiddlewareError` on failure, as the default `Middleware` trait methods do),
the pluggable estimator, and the inner stage's own `fill_transaction`.  The
inner fill returns both its result and the transaction state it leaves
behind, mirroring `&mut` mutation in place. -/
structure Env (α β ε : Type) where
  get_block : BlockTag → Except ε (Option Block)
  fee_history : Nat → BlockTag → List Nat → Except ε FeeHistory
  eip1559_estimator : Nat → List (List Nat) → Nat × Nat
  inner_fill : TypedTransaction α β → Option Nat →
    Except ε Unit × TypedTransaction α β

/-- `GasFeeMiddleware::fill_transaction` (source lines 96-131).  Returns the
call's result, the final transaction state (also on failure, mirroring
in-place mutation), and the list of chain-state queries this stage itself
issued. -/
def fill_transaction {α β ε : Type} (mw : GasFeeMiddleware) (env : Env α β ε)
    (tx : TypedTransaction α β) (block : Option Nat) :
    Except (GasFeeMiddlewareError ε) Unit × TypedTransaction α β ×
      List ChainQuery :=
  match tx with
  | .Eip1559 inner_tx =>
      match env.get_block .Latest with
      | .error e =>
          (.error (.MiddlewareError e), .Eip1559 inner_tx, [.GetBlock .Latest])
      | .ok none =>
          (.error (.ProviderError (.CustomError "Latest block not found")),
            .Eip1559 inner_tx, [.GetBlock .Latest])
      | .ok (some blk) =>
          match blk.base_fee_per_gas with
          | none =>
              (.error (.ProviderError (.CustomError "EIP-1559 not activated")),
                .Eip1559 inner_tx, [.GetBlock .Latest])
          | some base_fee_per_gas =>
              match env.fee_history EIP1559_FEE_ESTIMATION_PAST_BLOCKS .Latest
                  [mw.fee_history_percentile] with
              | .error e =>
                  (.error (.MiddlewareError e), .Eip1559 inner_tx,
                    [.GetBlock .Latest,
                     .FeeHistory EIP1559_FEE_ESTIMATION_PAST_BLOCKS .Latest
                       [mw.fee_history_percentile]])
              | .ok fh =>
                  let est := env.eip1559_estimator base_fee_per_gas fh.reward
                  let tx2 : TypedTransaction α β :=
                    .Eip1559 { inner_tx with
                      max_fee_per_gas := some est.1,
                      max_priority_fee_per_gas := some est.2 }
                  let res := env.inner_fill tx2 block
                  (Except.mapError .MiddlewareError res.1, res.2,
                    [.GetBlock .Latest,
                     .FeeHistory EIP1559_FEE_ESTIMATION_PAST_BLOCKS .Latest
                       [mw.fee_history_percentile]])
  | t =>
      let res := env.inner_fill t block
      (Except.mapError .MiddlewareError res.1, res.2, [])

/-- A sample EIP-1559 transaction with caller-supplied fee fields, used for
concrete evaluations. -/
def sampleTx : Eip1559Tx Nat :=
  { max_fee_per_gas := some 1, max_priority_fee_per_gas := some 2,
    payload := 5 }

/-- A sample environment matching the spec scenario: base fee 100, a single
historical reward sample 10, an identity inner stage, and a sample
estimator. -/
def sampleEnv : Env Nat Nat Unit where
  get_block := fun _ => .ok (some { base_fee_per_gas := some 100 })
  fee_history := fun _ _ _ => .ok { reward := [[10]] }
  eip1559_estimator := fun base rewards =>
    (2 * base + (rewards.headD []).headD 0, (rewards.headD []).headD 0)
  inner_fill := fun t _ => (.ok (), t)

/-- An environment whose latest-block query returns no block. -/
def envNoBlock : Env Nat Nat Unit where
  get_block := fun _ => .ok none
  fee_history := fun _ _ _ => .ok { reward := [] }
  eip1559_estimator := fun base _ => (base, base)
  inner_fill := fun t _ => (.ok (), t)

/-- An environment whose latest block lacks the base-fee field. -/
def envNoBaseFee : Env Nat Nat Unit where
  get_block := fun _ => .ok (some { base_fee_per_gas := none })
  fee_history := fun _ _ _ => .ok { reward := [] }
  eip1559_estimator := fun base _ => (base, base)
  inner_fill := fun t _ => (.ok (), t)

/-- An environment whose fee-history query fails. -/
def envFeeHistoryError : Env Nat Nat Unit where
  get_block := fun _ => .ok (some { base_fee_per_gas := some 100 })
  fee_history := fun _ _ _ => .error ()
  eip1559_estimator := fun base _ => (base, base)
  inner_fill := fun t _ => (.ok (), t)

/-- An environment whose inner stage's own preparation fails, leaving the
transaction as it received it. -/
def envInnerError : Env Nat Nat Unit where
  get_block := fun _ => .ok (some { base_fee_per_gas := some 100 })
  fee_history := fun _ _ _ => .ok { reward := [[10]] }
  eip1559_estimator := fun base rewards =>
    (2 * base + (rewards.headD []).headD 0, (rewards.headD []).headD 0)
  inner_fill := fun t _ => (.error (), t)

/-- Helper: on the fee-market success path (block found, base fee present,
fee history returned), `fill_transaction` overwrites both fee fields with
the estimator's pair and delegates the rewritten transaction to the inner
stage, its result and final state passed through. -/
theorem fill_eip1559_success_eq {α β ε : Type} (mw : GasFeeMiddleware)
    (env : Env α β ε) (t : Eip1559Tx β) (block : Option Nat)
    (blk : Block) (bf : Nat) (fh : FeeHistory)
    (hb : env.get_block .Latest = .ok (some blk))
    (hbase : blk.base_fee_per_gas = some bf)
    (hfh : env.fee_history EIP1559_FEE_ESTIMATION_PAST_BLOCKS .Latest
        [mw.fee_history_percentile] = .ok fh) :
    fill_transaction mw env (.Eip1559 t) block =
      (Except.mapError GasFeeMiddlewareError.MiddlewareError
          (env.inner_fill (.Eip1559 { t with
            max_fee_per_gas := some (env.eip1559_estimator bf fh.reward).1,
            max_priority_fee_per_gas :=
              some (env.eip1559_estimator bf fh.reward).2 }) block).1,
        (env.inner_fill (.Eip1559 { t with
            max_fee_per_gas := some (env.eip1559_estimator bf fh.reward).1,
            max_priority_fee_per_gas :=
              some (env.eip1559_estimator bf fh.reward).2 }) block).2,
        [.GetBlock .Latest,
         .FeeHistory EIP1559_FEE_ESTIMATION_PAST_BLOCKS .Latest
           [mw.fee_history_percentile]]) := by
  simp [fill_transaction, hb, hbase, hfh]

/-- C1: constructing the stage from each of the four speed levels succeeds
and resolves the fee percentile to exactly 25, 50, 75, 90 respectively,
while an ordinal outside the percentile mapping fails with
`InvalidGasFeeSpeed` (the spec's `InvalidSpeed`). -/
theorem new_resolves_fixed_percentiles (ε : Type) :
    GasFeeMiddleware.new ε GasFeeSpeed.Slow.toOrdinal =
      .ok { fee_history_percentile := 25 } ∧
    GasFeeMiddleware.new ε GasFeeSpeed.Medium.toOrdinal =
      .ok { fee_history_percentile := 50 } ∧
    GasFeeMiddleware.new ε GasFeeSpeed.Fast.toOrdinal =
      .ok { fee_history_percentile := 75 } ∧
    GasFeeMiddleware.new ε GasFeeSpeed.Fastest.toOrdinal =
      .ok { fee_history_percentile := 90 } ∧
    ∀ ord : Nat, 4 ≤ ord →
      GasFeeMiddleware.new ε ord = .error .InvalidGasFeeSpeed := by
  refine ⟨rfl, rfl, rfl, rfl, fun ord h => ?_⟩
  have hlen : EIP1559_FEE_ESTIMATION_REWARD_PERCENTILES.length ≤ ord := h
  unfold GasFeeMiddleware.new
  rw [List.getElem?_eq_none hlen]

/-- Witness for C1: ordinal 4 is outside the mapping and construction
fails with `InvalidGasFeeSpeed`. -/
theorem new_resolves_fixed_percentiles_witness :
    GasFeeMiddleware.new Unit 4 =
      .error GasFeeMiddlewareError.InvalidGasFeeSpeed :=
  (new_resolves_fixed_percentiles Unit).2.2.2.2 4 (by decide)

/-- C9: the speed-to-percentile mapping is total over the enumeration and
ordinal: a more urgent speed (higher ordinal) maps to a greater-or-equal
percentile. -/
theorem speed_percentile_total_ordinal :
    (∀ s : GasFeeSpeed, (percentile_for s).isSome = true) ∧
    (∀ s t : GasFeeSpeed, s.toOrdinal ≤ t.toOrdinal →
      (percentile_for s).getD 0 ≤ (percentile_for t).getD 0) := by
  decide

/-- Witness for C9 at the pair (Slow, Fastest). -/
theorem speed_percentile_total_ordinal_witness :
    (percentile_for GasFeeSpeed.Slow).getD 0 ≤
      (percentile_for GasFeeSpeed.Fastest).getD 0 :=
  speed_percentile_total_ordinal.2 GasFeeSpeed.Slow GasFeeSpeed.Fastest
    (by decide)

/-- C2: for a transaction that is not of the fee-market variant,
`fill_transaction` issues no chain-state queries of its own (empty query
log) and forwards the transaction unchanged to the inner stage, whose
result (wrapped on error) and final transaction state are passed
through. -/
theorem fill_non_eip1559_pass_through {α β ε : Type} (mw : GasFeeMiddleware)
    (env : Env α β ε) (tx : TypedTransaction α β) (block : Option Nat)
    (h : tx.isEip1559 = false) :
    fill_transaction mw env tx block =
      (Except.mapError GasFeeMiddlewareError.MiddlewareError
        (env.inner_fill tx block).1, (env.inner_fill tx block).2, []) := by
  cases tx with
  | Legacy a => rfl
  | Eip2930 a => rfl
  | Eip1559 t => simp [TypedTransaction.isEip1559] at h

/-- Witness for C2 on a concrete legacy transaction. -/
theorem fill_non_eip1559_pass_through_witness :
    fill_transaction { fee_history_percentile := 75 } sampleEnv
        (TypedTransaction.Legacy 7) none =
      (Except.mapError GasFeeMiddlewareError.MiddlewareError
        (sampleEnv.inner_fill (TypedTransaction.Legacy 7) none).1,
        (sampleEnv.inner_fill (TypedTransaction.Legacy 7) none).2, []) :=
  fill_non_eip1559_pass_through { fee_history_percentile := 75 } sampleEnv
    (TypedTransaction.Legacy 7) none rfl

/-- C3: for a fee-market transaction, when the chain reports base fee `bf`
and fee history with reward matrix `fh.reward` at the stage's percentile, a
successful preparation writes exactly the estimator's pair
`env.eip1559_estimator bf fh.reward` into the two fee fields, overwriting
the caller-supplied values `old_mf` and `old_mp`, which do not survive into
the transaction handed to the inner stage. -/
theorem fill_eip1559_sets_estimator_pair {α β ε : Type}
    (mw : GasFeeMiddleware) (env : Env α β ε) (old_mf old_mp : Option Nat)
    (payl : β) (block : Option Nat) (blk : Block) (bf : Nat)
    (fh : FeeHistory)
    (hb : env.get_block .Latest = .ok (some blk))
    (hbase : blk.base_fee_per_gas = some bf)
    (hfh : env.fee_history EIP1559_FEE_ESTIMATION_PAST_BLOCKS .Latest
        [mw.fee_history_percentile] = .ok fh) :
    fill_transaction mw env
        (.Eip1559
          { max_fee_per_gas := old_mf,
            max_priority_fee_per_gas := old_mp,
            payload := payl }) block =
      (Except.mapError GasFeeMiddlewareError.MiddlewareError
          (env.inner_fill
            (.Eip1559
              { max_fee_per_gas := some (env.eip1559_estimator bf fh.reward).1,
                max_priority_fee_per_gas :=
                    some (env.eip1559_estimator bf fh.reward).2,
                payload := payl }) block).1,
        (env.inner_fill
            (.Eip1559
              { max_fee_per_gas := some (env.eip1559_estimator bf fh.reward).1,
                max_priority_fee_per_gas :=
                    some (env.eip1559_estimator bf fh.reward).2,
                payload := payl }) block).2,
        [.GetBlock .Latest,
         .FeeHistory EIP1559_FEE_ESTIMATION_PAST_BLOCKS .Latest
           [mw.fee_history_percentile]]) :=
  fill_eip1559_success_eq mw env
    { max_fee_per_gas := old_mf, max_priority_fee_per_gas := old_mp,
      payload := payl } block blk bf fh hb hbase hfh

/-- Witness for C3: percentile 75, base fee 100, reward matrix `[[10]]`;
the caller-supplied fee fields 1 and 2 are overwritten with the sample
estimator's pair. -/
theorem fill_eip1559_sets_estimator_pair_witness :
    fill_transaction { fee_history_percentile := 75 } sampleEnv
        (.Eip1559
          { max_fee_per_gas := some 1,
            max_priority_fee_per_gas := some 2,
            payload := 5 }) none =
      (Except.mapError GasFeeMiddlewareError.MiddlewareError
          (sampleEnv.inner_fill
            (.Eip1559
              { max_fee_per_gas := some (sampleEnv.eip1559_estimator 100 [[10]]).1,
                max_priority_fee_per_gas :=
                    some (sampleEnv.eip1559_estimator 100 [[10]]).2,
                payload := 5 }) none).1,
        (sampleEnv.inner_fill
            (.Eip1559
              { max_fee_per_gas := some (sampleEnv.eip1559_estimator 100 [[10]]).1,
                max_priority_fee_per_gas :=
                    some (sampleEnv.eip1559_estimator 100 [[10]]).2,
                payload := 5 }) none).2,
        [.GetBlock .Latest,
         .FeeHistory EIP1559_FEE_ESTIMATION_PAST_BLOCKS .Latest [75]]) :=
  fill_eip1559_sets_estimator_pair { fee_history_percentile := 75 }
    sampleEnv (some 1) (some 2) 5 none { base_fee_per_gas := some 100 } 100
    { reward := [[10]] } rfl rfl rfl

/-- C4: for a fee-market transaction, a latest-block query returning no
block fails with `ProviderError (CustomError "Latest block not found")`
(the spec's `ChainStateError("latest block not found")`), and a block
lacking the base-fee field fails with
`ProviderError (CustomError "EIP-1559 not activated")` (the spec's
`ChainStateError("fee market not active")`); in both cases the transaction,
its fee fields included, is left exactly as supplied. -/
theorem fill_eip1559_chain_state_errors {α β ε : Type}
    (mw : GasFeeMiddleware) (env : Env α β ε) (t : Eip1559Tx β)
    (block : Option Nat) :
    (env.get_block .Latest = .ok none →
      fill_transaction mw env (.Eip1559 t) block =
        (.error (.ProviderError (.CustomError "Latest block not found")),
          .Eip1559 t, [.GetBlock .Latest])) ∧
    (∀ blk : Block, env.get_block .Latest = .ok (some blk) →
      blk.base_fee_per_gas = none →
      fill_transaction mw env (.Eip1559 t) block =
        (.error (.ProviderError (.CustomError "EIP-1559 not activated")),
          .Eip1559 t, [.GetBlock .Latest])) := by
  constructor
  · intro h
    simp [fill_transaction, h]
  · intro blk h hbase
    simp [fill_transaction, h, hbase]

/-- Witness for C4: both chain-state failure modes on concrete
environments, the transaction left as supplied. -/
theorem fill_eip1559_chain_state_errors_witness :
    (fill_transaction { fee_history_percentile := 75 } envNoBlock
        (.Eip1559 sampleTx) none =
      (.error (.ProviderError (.CustomError "Latest block not found")),
        .Eip1559 sampleTx, [.GetBlock .Latest])) ∧
    (fill_transaction { fee_history_percentile := 75 } envNoBaseFee
        (.Eip1559 sampleTx) none =
      (.error (.ProviderError (.CustomError "EIP-1559 not activated")),
        .Eip1559 sampleTx, [.GetBlock .Latest])) :=
  ⟨(fill_eip1559_chain_state_errors { fee_history_percentile := 75 }
      envNoBlock sampleTx none).1 rfl,
   (fill_eip1559_chain_state_errors { fee_history_percentile := 75 }
      envNoBaseFee sampleTx none).2 { base_fee_per_gas := none } rfl rfl⟩

/-- C5: on every failure path before the estimator's result is written —
failed block lookup, missing block, missing base fee, failed fee-history
query — the transaction is left exactly as supplied, so its fee fields are
never partially set; and whenever the write step is reached, both fee
fields are set together (to `some` values) in the transaction this stage
delegates onward. -/
theorem fill_eip1559_fee_fields_atomic {α β ε : Type}
    (mw : GasFeeMiddleware) (env : Env α β ε) (t : Eip1559Tx β)
    (block : Option Nat) :
    (∀ e : ε, env.get_block .Latest = .error e →
      (fill_transaction mw env (.Eip1559 t) block).2.1 = .Eip1559 t) ∧
    (env.get_block .Latest = .ok none →
      (fill_transaction mw env (.Eip1559 t) block).2.1 = .Eip1559 t) ∧
    (∀ blk : Block, env.get_block .Latest = .ok (some blk) →
      blk.base_fee_per_gas = none →
      (fill_transaction mw env (.Eip1559 t) block).2.1 = .Eip1559 t) ∧
    (∀ (blk : Block) (bf : Nat) (e : ε),
      env.get_block .Latest = .ok (some blk) →
      blk.base_fee_per_gas = some bf →
      env.fee_history EIP1559_FEE_ESTIMATION_PAST_BLOCKS .Latest
        [mw.fee_history_percentile] = .error e →
      (fill_transaction mw env (.Eip1559 t) block).2.1 = .Eip1559 t) ∧
    (∀ (blk : Block) (bf : Nat) (fh : FeeHistory),
      env.get_block .Latest = .ok (some blk) →
      blk.base_fee_per_gas = some bf →
      env.fee_history EIP1559_FEE_ESTIMATION_PAST_BLOCKS .Latest
        [mw.fee_history_percentile] = .ok fh →
      ∃ mf mp : Nat,
        (fill_transaction mw env (.Eip1559 t) block).2.1 =
          (env.inner_fill
            (.Eip1559
              { t with
                max_fee_per_gas := some mf,
                max_priority_fee_per_gas := some mp }) block).2) := by
  refine ⟨?_, ?_, ?_, ?_, ?_⟩
  · intro e h
    simp [fill_transaction, h]
  · intro h
    simp [fill_transaction, h]
  · intro blk h hbase
    simp [fill_transaction, h, hbase]
  · intro blk bf e h hbase hfh
    simp [fill_transaction, h, hbase, hfh]
  · intro blk bf fh h hbase hfh
    refine ⟨(env.eip1559_estimator bf fh.reward).1,
      (env.eip1559_estimator bf fh.reward).2, ?_⟩
    rw [fill_eip1559_success_eq mw env t block blk bf fh h hbase hfh]

/-- Witness for C5: with a failing fee-history query the transaction keeps
its caller-supplied fee fields. -/
theorem fill_eip1559_fee_fields_atomic_witness :
    (fill_transaction { fee_history_percentile := 75 } envFeeHistoryError
      (.Eip1559 sampleTx) none).2.1 = .Eip1559 sampleTx :=
  (fill_eip1559_fee_fields_atomic { fee_history_percentile := 75 }
      envFeeHistoryError sampleTx none).2.2.2.1
    { base_fee_per_gas := some 100 } 100 () rfl rfl rfl

/-- C6: for a fee-market transaction that reaches the fee-history step, the
query this stage issues covers the fixed window of
`EIP1559_FEE_ESTIMATION_PAST_BLOCKS` blocks ending at the latest block and
requests exactly the singleton percentile list
`[mw.fee_history_percentile]`; and the returned reward matrix is passed to
the estimator unaltered: the transaction delegated onward carries the
estimator applied to `fh.reward` itself. -/
theorem fill_eip1559_fee_history_query {α β ε : Type}
    (mw : GasFeeMiddleware) (env : Env α β ε) (t : Eip1559Tx β)
    (block : Option Nat) (blk : Block) (bf : Nat) (fh : FeeHistory)
    (hb : env.get_block .Latest = .ok (some blk))
    (hbase : blk.base_fee_per_gas = some bf)
    (hfh : env.fee_history EIP1559_FEE_ESTIMATION_PAST_BLOCKS .Latest
        [mw.fee_history_percentile] = .ok fh) :
    (fill_transaction mw env (.Eip1559 t) block).2.2 =
      [.GetBlock .Latest,
       .FeeHistory EIP1559_FEE_ESTIMATION_PAST_BLOCKS .Latest
         [mw.fee_history_percentile]] ∧
    (fill_transaction mw env (.Eip1559 t) block).2.1 =
      (env.inner_fill
        (.Eip1559
          { t with
            max_fee_per_gas := some (env.eip1559_estimator bf fh.reward).1,
            max_priority_fee_per_gas :=
                some (env.eip1559_estimator bf fh.reward).2 }) block).2 := by
  rw [fill_eip1559_success_eq mw env t block blk bf fh hb hbase hfh]
  exact ⟨rfl, rfl⟩

/-- Witness for C6, matching the spec scenario: percentile 75, base fee
100, one historical reward sample 10; the estimator receives exactly
`(100, [[10]])`. -/
theorem fill_eip1559_fee_history_query_witness :
    (fill_transaction { fee_history_percentile := 75 } sampleEnv
      (.Eip1559 sampleTx) none).2.2 =
      [.GetBlock .Latest,
       .FeeHistory EIP1559_FEE_ESTIMATION_PAST_BLOCKS .Latest [75]] ∧
    (fill_transaction { fee_history_percentile := 75 } sampleEnv
      (.Eip1559 sampleTx) none).2.1 =
      (sampleEnv.inner_fill
        (.Eip1559
          { sampleTx with
            max_fee_per_gas := some (sampleEnv.eip1559_estimator 100 [[10]]).1,
            max_priority_fee_per_gas :=
                some (sampleEnv.eip1559_estimator 100 [[10]]).2 }) none).2 :=
  fill_eip1559_fee_history_query { fee_history_percentile := 75 } sampleEnv
    sampleTx none { base_fee_per_gas := some 100 } 100 { reward := [[10]] }
    rfl rfl rfl

/-- C7: if the inner stage's own preparation fails, the whole call fails
with that inner error wrapped in `MiddlewareError` (preserved for
inspection), and the final transaction state is whatever the inner stage
left behind — fee fields already written by this stage are not reverted.
Both the non-fee-market branch and the fee-market success path are
covered. -/
theorem fill_inner_error_wrapped {α β ε : Type} (mw : GasFeeMiddleware)
    (env : Env α β ε) (block : Option Nat) :
    (∀ (tx u : TypedTransaction α β) (e : ε), tx.isEip1559 = false →
      env.inner_fill tx block = (.error e, u) →
      fill_transaction mw env tx block =
        (.error (.MiddlewareError e), u, [])) ∧
    (∀ (t : Eip1559Tx β) (blk : Block) (bf : Nat) (fh : FeeHistory)
        (e : ε) (u : TypedTransaction α β),
      env.get_block .Latest = .ok (some blk) →
      blk.base_fee_per_gas = some bf →
      env.fee_history EIP1559_FEE_ESTIMATION_PAST_BLOCKS .Latest
        [mw.fee_history_percentile] = .ok fh →
      env.inner_fill
        (.Eip1559
          { t with
            max_fee_per_gas := some (env.eip1559_estimator bf fh.reward).1,
            max_priority_fee_per_gas :=
                some (env.eip1559_estimator bf fh.reward).2 }) block =
        (.error e, u) →
      fill_transaction mw env (.Eip1559 t) block =
        (.error (.MiddlewareError e), u,
          [.GetBlock .Latest,
           .FeeHistory EIP1559_FEE_ESTIMATION_PAST_BLOCKS .Latest
             [mw.fee_history_percentile]])) := by
  constructor
  · intro tx u e hvariant hinner
    cases tx with
    | Legacy a => simp [fill_transaction, hinner, Except.mapError]
    | Eip2930 a => simp [fill_transaction, hinner, Except.mapError]
    | Eip1559 t => simp [TypedTransaction.isEip1559] at hvariant
  · intro t blk bf fh e u hb hbase hfh hinner
    rw [fill_eip1559_success_eq mw env t block blk bf fh hb hbase hfh,
      hinner]
    simp [Except.mapError]

/-- Witness for C7: a failing inner stage surfaces its error wrapped while
the fee fields this stage wrote (210 and 10) remain in place. -/
theorem fill_inner_error_wrapped_witness :
    fill_transaction { fee_history_percentile := 75 } envInnerError
        (.Eip1559 sampleTx) none =
      (.error (.MiddlewareError ()),
        .Eip1559
          { max_fee_per_gas := some 210,
            max_priority_fee_per_gas := some 10,
            payload := 5 },
        [.GetBlock .Latest,
         .FeeHistory EIP1559_FEE_ESTIMATION_PAST_BLOCKS .Latest [75]]) :=
  (fill_inner_error_wrapped { fee_history_percentile := 75 } envInnerError
      none).2 sampleTx { base_fee_per_gas := some 100 } 100
    { reward := [[10]] } ()
    (.Eip1559
      { max_fee_per_gas := some 210,
        max_priority_fee_per_gas := some 10,
        payload := 5 })
    rfl rfl rfl rfl

/-- C8: idempotence given stable chain state — with an inner stage that
performs no rewriting of its own, a successful call followed by a second
call on its output transaction, against identical chain-state responses,
returns the very same transaction: identical fee-field values. -/
theorem fill_idempotent_stable_chain {α β ε : Type} (mw : GasFeeMiddleware)
    (env : Env α β ε) (t : Eip1559Tx β) (block : Option Nat)
    (blk : Block) (bf : Nat) (fh : FeeHistory)
    (tx1 : TypedTransaction α β) (qs : List ChainQuery)
    (hb : env.get_block .Latest = .ok (some blk))
    (hbase : blk.base_fee_per_gas = some bf)
    (hfh : env.fee_history EIP1559_FEE_ESTIMATION_PAST_BLOCKS .Latest
        [mw.fee_history_percentile] = .ok fh)
    (hid : ∀ (u : TypedTransaction α β) (b : Option Nat),
      env.inner_fill u b = (.ok (), u))
    (h1 : fill_transaction mw env (.Eip1559 t) block = (.ok (), tx1, qs)) :
    fill_transaction mw env tx1 block = (.ok (), tx1, qs) := by
  have he := fill_eip1559_success_eq mw env t block blk bf fh hb hbase hfh
  rw [h1] at he
  simp only [hid, Except.mapError] at he
  have htx : tx1 =
      .Eip1559
        { t with
          max_fee_per_gas := some (env.eip1559_estimator bf fh.reward).1,
          max_priority_fee_per_gas :=
              some (env.eip1559_estimator bf fh.reward).2 } :=
    congrArg (fun p => p.2.1) he
  have hqs : qs =
      [.GetBlock .Latest,
       .FeeHistory EIP1559_FEE_ESTIMATION_PAST_BLOCKS .Latest
         [mw.fee_history_percentile]] :=
    congrArg (fun p => p.2.2) he
  subst htx
  subst hqs
  have he2 := fill_eip1559_success_eq mw env
    { t with
      max_fee_per_gas := some (env.eip1559_estimator bf fh.reward).1,
      max_priority_fee_per_gas :=
          some (env.eip1559_estimator bf fh.reward).2 }
    block blk bf fh hb hbase hfh
  simp only [hid, Except.mapError] at he2
  exact he2

/-- Witness for C8: a second call on the output of a successful first call
against the same sample chain state returns the same transaction. -/
theorem fill_idempotent_stable_chain_witness :
    fill_transaction { fee_history_percentile := 75 } sampleEnv
        (.Eip1559
          { max_fee_per_gas := some 210,
            max_priority_fee_per_gas := some 10,
            payload := 5 }) none =
      (.ok (),
        .Eip1559
          { max_fee_per_gas := some 210,
            max_priority_fee_per_gas := some 10,
            payload := 5 },
        [.GetBlock .Latest,
         .FeeHistory EIP1559_FEE_ESTIMATION_PAST_BLOCKS .Latest [75]]) :=
  fill_idempotent_stable_chain { fee_history_percentile := 75 } sampleEnv
    sampleTx none { base_fee_per_gas := some 100 } 100 { reward := [[10]] }
    (.Eip1559
      { max_fee_per_gas := some 210,
        max_priority_fee_per_gas := some 10,
        payload := 5 })
    [.GetBlock .Latest,
     .FeeHistory EIP1559_FEE_ESTIMATION_PAST_BLOCKS .Latest [75]]
    rfl rfl rfl (fun _ _ => rfl) rfl

/-- Helper: when the inner stage does not distinguish the two block hints,
`fill_transaction` returns the same value under either hint. -/
theorem fill_transaction_hint_eq {α β ε : Type} (mw : GasFeeMiddleware)
    (env : Env α β ε) (tx : TypedTransaction α β) (b1 b2 : Option Nat)
    (hins : ∀ u : TypedTransaction α β,
      env.inner_fill u b1 = env.inner_fill u b2) :
    fill_transaction mw env tx b1 = fill_transaction mw env tx b2 := by
  cases tx with
  | Legacy a => simp only [fill_transaction, hins]
  | Eip2930 a => simp only [fill_transaction, hins]
  | Eip1559 t =>
      cases hgb : env.get_block BlockTag.Latest with
      | error e => simp [fill_transaction, hgb]
      | ok ob =>
        cases ob with
        | none => simp [fill_transaction, hgb]
        | some blk =>
          cases hbf : blk.base_fee_per_gas with
          | none => simp [fill_transaction, hgb, hbf]
          | some bf =>
            cases hfh : env.fee_history EIP1559_FEE_ESTIMATION_PAST_BLOCKS
                BlockTag.Latest [mw.fee_history_percentile] with
            | error e => simp [fill_transaction, hgb, hbf, hfh]
            | ok fh => simp [fill_transaction, hgb, hbf, hfh, hins]

/-- C10: the fee estimation is independent of the optional target-block
argument: the query log — which shows that the block lookup and the
fee-history query always target the latest block — never depends on the
supplied hint, and when the inner stage (the only place the hint is
forwarded) is insensitive to it, two calls differing only in the hint
coincide entirely, fee fields included. -/
theorem fill_block_hint_independent {α β ε : Type} (mw : GasFeeMiddleware)
    (env : Env α β ε) (tx : TypedTransaction α β) :
    (∀ b1 b2 : Option Nat,
      (fill_transaction mw env tx b1).2.2 =
        (fill_transaction mw env tx b2).2.2) ∧
    ((∀ (u : TypedTransaction α β) (b b' : Option Nat),
        env.inner_fill u b = env.inner_fill u b') →
      ∀ b1 b2 : Option Nat,
        fill_transaction mw env tx b1 = fill_transaction mw env tx b2) := by
  constructor
  · intro b1 b2
    cases tx with
    | Legacy a => rfl
    | Eip2930 a => rfl
    | Eip1559 t =>
        cases hgb : env.get_block BlockTag.Latest with
        | error e => simp [fill_transaction, hgb]
        | ok ob =>
          cases ob with
          | none => simp [fill_transaction, hgb]
          | some blk =>
            cases hbf : blk.base_fee_per_gas with
            | none => simp [fill_transaction, hgb, hbf]
            | some bf =>
              cases hfh : env.fee_history EIP1559_FEE_ESTIMATION_PAST_BLOCKS
                  BlockTag.Latest [mw.fee_history_percentile] with
              | error e => simp [fill_transaction, hgb, hbf, hfh]
              | ok fh => simp [fill_transaction, hgb, hbf, hfh]
  · intro hins b1 b2
    exact fill_transaction_hint_eq mw env tx b1 b2 (fun u => hins u b1 b2)

/-- Witness for C10: two concrete calls differing only in the block hint
coincide. -/
theorem fill_block_hint_independent_witness :
    (fill_transaction { fee_history_percentile := 75 } sampleEnv
      (.Eip1559 sampleTx) (some 3)).2.2 =
      (fill_transaction { fee_history_percentile := 75 } sampleEnv
        (.Eip1559 sampleTx) (some 4)).2.2 ∧
    fill_transaction { fee_history_percentile := 75 } sampleEnv
        (.Eip1559 sampleTx) (some 3) =
      fill_transaction { fee_history_percentile := 75 } sampleEnv
        (.Eip1559 sampleTx) (some 4) :=
  ⟨(fill_block_hint_independent { fee_history_percentile := 75 } sampleEnv
      (.Eip1559 sampleTx)).1 (some 3) (some 4),
   (fill_block_hint_independent { fee_history_percentile := 75 } sampleEnv
      (.Eip1559 sampleTx)).2 (fun _ _ _ => rfl) (some 3) (some 4)⟩

end AlloyEthersTypecast
